import Mathlib

/-!
Shallow embedding of the OEM719 log parser (Python sources under
`src/OEM719 Log Parser Python/src/parsers/`) and proofs about it.

Conventions of the embedding:
* Python strings are Lean `String`s; most character-level work is done on
  `List Char` (the `.data` of a `String`) so that all definitions reduce in
  the kernel.
* Python `re` patterns used by the sources are deterministic (greedy runs
  of character classes followed by literal delimiters), so each one is
  embedded as a first-order matching function that returns the capture
  groups; the correspondence is noted at each definition.
* Python `float` values are modelled as the exact decimals they are parsed
  from (integer microsecond arithmetic in the timestamp path, an exact
  rational in the frequency-filter constructor).
* Wall-clock reads (`datetime.now()`) are modelled by threading the
  already-formatted current-time string as an explicit `now` parameter.
-/

set_option maxRecDepth 20000

namespace OEM719

/-- Python `str.isspace` character set used by `str.strip()`. -/
def isPyWs (c : Char) : Bool :=
  c == ' ' || c == '\t' || c == '\n' || c == '\r' || c == '\x0b' || c == '\x0c'

/-- Python `str.strip()` on a character list: drop whitespace from both ends. -/
def pyStripList (l : List Char) : List Char :=
  ((l.dropWhile isPyWs).reverse.dropWhile isPyWs).reverse

/-- Python `str.strip()`. -/
def pyStrip (s : String) : String :=
  String.mk (pyStripList s.data)

/-- Does `l` start with `pat` (Python `str.startswith` on lists)? -/
def listStartsWith : List Char → List Char → Bool
  | [], _ => true
  | _ :: _, [] => false
  | p :: ps, c :: cs => p == c && listStartsWith ps cs

/-- Python `str.startswith`. -/
def strStartsWith (s pat : String) : Bool :=
  listStartsWith pat.data s.data

/-- Substring containment over all suffixes (Python `pat in s`). -/
def containsSubAux (pat : List Char) : List Char → Bool
  | [] => listStartsWith pat []
  | c :: cs => listStartsWith pat (c :: cs) || containsSubAux pat cs

/-- Python `pat in s` substring test. -/
def containsSub (s pat : String) : Bool :=
  containsSubAux pat.data s.data

/-- Python `str.split(',')` on a character list; accumulator-based scan. -/
def splitCommaAux : List Char → List Char → List (List Char)
  | acc, [] => [acc.reverse]
  | acc, ',' :: rest => acc.reverse :: splitCommaAux [] rest
  | acc, c :: rest => splitCommaAux (c :: acc) rest

/-- Python `str.split(',')`. -/
def splitComma (l : List Char) : List (List Char) :=
  splitCommaAux [] l

/-- Split a string on commas and `str.strip()` each field, as the message
parsers do with `[f.strip() for f in part.split(',')]`. -/
def splitStripFields (s : String) : List String :=
  (splitComma s.data).map (fun f => String.mk (pyStripList f))

/-- Python `str.replace('""', '')`: remove doubled-quote pairs left to right. -/
def removeQQ : List Char → List Char
  | '"' :: '"' :: rest => removeQQ rest
  | c :: rest => c :: removeQQ rest
  | [] => []

/-- Field cleanup `f.replace('""', '')` from `BestXYZParser.parse`. -/
def removeQQStr (s : String) : String :=
  String.mk (removeQQ s.data)

/-- Index of the last `'*'` reachable by a greedy `(.+)\*` match: the last
index `k ≥ 1` inside the maximal newline-free prefix holding `'*'`
(`.` does not match a newline and `.+` needs at least one character). -/
def lastStarIndex (l : List Char) : Option Nat :=
  let nl := l.takeWhile (fun c => c != '\n')
  ((List.range nl.length).filter
    (fun k => decide (1 ≤ k) && (nl.getD k ' ' == '*'))).getLast?

/-- Embeds `re.match(marker + r',([^;]+);(.+)\*', line)`: on success returns
the two capture groups (header part, data part). -/
def matchHeaderData (marker : String) (line : String) : Option (String × String) :=
  let cs := line.data
  if listStartsWith (marker.data ++ [',']) cs then
    let rest := cs.drop (marker.data.length + 1)
    match rest.findIdx? (fun c => c == ';') with
    | none => none
    | some i =>
      if i = 0 then none
      else
        let afterSemi := rest.drop (i + 1)
        match lastStarIndex afterSemi with
        | none => none
        | some k => some (String.mk (rest.take i), String.mk (afterSemi.take k))
  else none

/-- `BestXYZParser.parse` from `message_parsers.py` (lines 21-37). -/
def bestxyzParse (timestamp line : String) : Option (List String) :=
  match matchHeaderData "#BESTXYZA" line with
  | none => none
  | some (h, d) =>
    let headerFields := splitStripFields h
    let dataFields := (splitStripFields d).map removeQQStr
    some ([timestamp, "#BESTXYZA"] ++ headerFields.tail ++ dataFields)

/-- `PSRDOPAParser.parse` from `message_parsers.py` (lines 77-90). -/
def psrdopaParse (timestamp line : String) : Option (List String) :=
  match matchHeaderData "#PSRDOPA" line with
  | none => none
  | some (h, d) =>
    let headerFields := splitStripFields h
    let dataFields := splitStripFields d
    some ([timestamp, "#PSRDOPA"] ++ headerFields.tail ++ dataFields.take 6)

/-- Decimal digit test (`\d` for the ASCII inputs at hand). -/
def isDigitCh (c : Char) : Bool :=
  '0' ≤ c && c ≤ '9'

/-- Greedy `\d+`-style split: maximal digit run and the remainder. -/
def takeDigits (l : List Char) : List Char × List Char :=
  (l.takeWhile isDigitCh, l.dropWhile isDigitCh)

/-- Numeric value of a digit run (Python `int` on the matched group). -/
def digitsToNat (l : List Char) : Nat :=
  l.foldl (fun acc c => acc * 10 + (c.toNat - '0'.toNat)) 0

/-- Digit characters of a natural number, fuel-based. -/
def natToStrAux : Nat → Nat → List Char
  | 0, _ => []
  | fuel + 1, n =>
    if n < 10 then [Char.ofNat ('0'.toNat + n)]
    else natToStrAux fuel (n / 10) ++ [Char.ofNat ('0'.toNat + n % 10)]

/-- Python `str(n)` for a natural number. -/
def natToStr (n : Nat) : String :=
  String.mk (natToStrAux (n + 1) n)

/-- Embeds `re.match(r'\$GPGSV,(\d+),(\d+),(\d+),(.+)\*', line)` from
`GPGSVParser.parse_multi`; returns `(total_msgs, msg_num, total_sats,
sat_info)` with `sat_info` already split on commas
(`match.group(4).split(',')`, no stripping at this point). -/
def matchGpgsv (line : String) : Option (Nat × Nat × Nat × List String) :=
  if strStartsWith line "$GPGSV," then
    let rest := line.data.drop 7
    let p1 := takeDigits rest
    if p1.1.isEmpty then none
    else
      match p1.2 with
      | ',' :: r2 =>
        let p2 := takeDigits r2
        if p2.1.isEmpty then none
        else
          match p2.2 with
          | ',' :: r4 =>
            let p3 := takeDigits r4
            if p3.1.isEmpty then none
            else
              match p3.2 with
              | ',' :: r6 =>
                match lastStarIndex r6 with
                | some k =>
                  some (digitsToNat p1.1, digitsToNat p2.1, digitsToNat p3.1,
                        (splitComma (r6.take k)).map String.mk)
                | none => none
              | _ => none
          | _ => none
      | _ => none
  else none

/-- The accumulation loop of `GPGSVParser.parse_multi` (lines 145-159):
walks the given lines, stops at the first line that does not start with
`$GPGSV`, counts every started line as consumed, and for each line that
also matches the full pattern appends its satellite fields and keeps the
latest `total_sats`.  Returns `(satellite_data, last total_sats if any,
lines_consumed)`. -/
def gpgsvScan : List String → List String × Option Nat × Nat
  | [] => ([], none, 0)
  | l :: ls =>
    if strStartsWith l "$GPGSV" then
      match matchGpgsv l with
      | some g =>
        let r := gpgsvScan ls
        (g.2.2.2 ++ r.1, some (r.2.1.getD g.2.2.1), r.2.2 + 1)
      | none =>
        let r := gpgsvScan ls
        (r.1, r.2.1, r.2.2 + 1)
    else ([], none, 0)

/-- One output slot of the GPGSV row (lines 169-173): the stripped in-range
satellite value when non-blank, else the literal `#NV`. -/
def slotVal (satData : List String) (i : Nat) : String :=
  if i < satData.length then
    if pyStrip (satData.getD i "") = "" then "#NV" else pyStrip (satData.getD i "")
  else "#NV"

/-- The row built by `GPGSVParser.parse_multi` once at least one line was
consumed: `[timestamp, str(total_sats)]` followed by `max_sats * 4 = 400`
slots (`max_sats = 100`). -/
def gpgsvRow (timestamp : String) (totalSats : Nat) (satData : List String) : List String :=
  timestamp :: natToStr totalSats :: (List.range (100 * 4)).map (slotVal satData)

/-- `GPGSVParser.parse_multi` from `message_parsers.py` (lines 136-175):
returns `(row_data, num_lines_consumed)`. -/
def gpgsvParseMulti (timestamp : String) (lines : List String) :
    Option (List String) × Nat :=
  let scan := gpgsvScan lines
  if scan.2.2 = 0 then (none, 0)
  else (some (gpgsvRow timestamp (scan.2.1.getD 0) scan.1), scan.2.2)

/-- One attempt of `re.search(r',(\d+),(\d+\.\d+),', line)` at the current
position: comma, digit run, comma, digit run, dot, digit run, comma.
Returns the week digits and the two decimal parts of the seconds. -/
def matchWeekSecAt (l : List Char) : Option (List Char × List Char × List Char) :=
  match l with
  | ',' :: r1 =>
    let p1 := takeDigits r1
    if p1.1.isEmpty then none
    else
      match p1.2 with
      | ',' :: r2 =>
        let p2 := takeDigits r2
        if p2.1.isEmpty then none
        else
          match p2.2 with
          | '.' :: r3 =>
            let p3 := takeDigits r3
            if p3.1.isEmpty then none
            else
              match p3.2 with
              | ',' :: _ => some (p1.1, p2.1, p3.1)
              | _ => none
          | _ => none
      | _ => none
  | _ => none

/-- Leftmost match of `re.search(r',(\d+),(\d+\.\d+),', line)` from
`TimestampExtractor.extract_from_line` (line 33). -/
def searchWeekSec : List Char → Option (List Char × List Char × List Char)
  | [] => none
  | c :: rest =>
    match matchWeekSecAt (c :: rest) with
    | some r => some r
    | none => searchWeekSec rest

/-- Round `n / d` to the nearest integer, ties to even — the rounding
`datetime.timedelta` applies when converting fractional seconds to
microseconds. -/
def roundHalfEvenNat (n d : Nat) : Nat :=
  let q := n / d
  let r := n % d
  if 2 * r < d then q
  else if d < 2 * r then q + 1
  else if q % 2 = 0 then q else q + 1

/-- Microseconds of `timedelta(seconds = week*7*24*3600 + float('<i>.<f>'))`:
the matched seconds value is modelled as the exact decimal it spells
(`digitsToNat intPart . digitsToNat fracPart`), and `timedelta` rounds the
fractional part to whole microseconds, ties to even.  The week term is an
exact integer number of seconds. -/
def timedeltaMicros (week : Nat) (intPart fracPart : List Char) : Nat :=
  week * (7 * 24 * 3600) * 1000000 + digitsToNat intPart * 1000000 +
    roundHalfEvenNat (digitsToNat fracPart * 1000000) (10 ^ fracPart.length)

/-- Gregorian civil date from a day number counted from 1970-01-01
(the arithmetic `datetime` performs); returns `(year, month, day)`. -/
def civilFromDays (z0 : ℤ) : ℤ × ℤ × ℤ :=
  let z := z0 + 719468
  let era := Int.fdiv z 146097
  let doe := z - era * 146097
  let yoe := Int.fdiv (doe - Int.fdiv doe 1460 + Int.fdiv doe 36524 - Int.fdiv doe 146096) 365
  let y := yoe + era * 400
  let doy := doe - (365 * yoe + Int.fdiv yoe 4 - Int.fdiv yoe 100)
  let mp := Int.fdiv (5 * doy + 2) 153
  let d := doy - Int.fdiv (153 * mp + 2) 5 + 1
  let m := mp + (if mp < 10 then 3 else -9)
  (if m ≤ 2 then y + 1 else y, m, d)

/-- Left-pad a numeral with zeros to the given width. -/
def padZeros (w : Nat) (s : String) : String :=
  String.mk (List.replicate (w - s.data.length) '0' ++ s.data)

/-- Python `[:-3]` on the formatted string (drop the last three characters;
list-based so it reduces in the kernel). -/
def dropLast3 (s : String) : String :=
  String.mk (s.data.take (s.data.length - 3))

/-- Python `dt.strftime("%m/%d/%Y %I:%M:%S.%f %p")` for the instant `y-m-d`
plus `todMicros` microseconds into the day: zero-padded month, day, year,
12-hour clock, minutes, seconds, six-digit microseconds, then the meridiem. -/
def strftimeFull (y m d : ℤ) (todMicros : Nat) : String :=
  let hh := todMicros / 3600000000
  let rem := todMicros % 3600000000
  let mi := rem / 60000000
  let rem2 := rem % 60000000
  let ss := rem2 / 1000000
  let us := rem2 % 1000000
  let h12 := if hh % 12 = 0 then 12 else hh % 12
  let mer := if hh < 12 then "AM" else "PM"
  padZeros 2 (natToStr m.toNat) ++ "/" ++ padZeros 2 (natToStr d.toNat) ++ "/" ++
    padZeros 4 (natToStr y.toNat) ++ " " ++ padZeros 2 (natToStr h12) ++ ":" ++
    padZeros 2 (natToStr mi) ++ ":" ++ padZeros 2 (natToStr ss) ++ "." ++
    padZeros 6 (natToStr us) ++ " " ++ mer

/-- `TimestampExtractor._format_gps_time` (lines 46-73): GPS epoch
1980-01-06 plus `week*7*24*3600 + seconds` seconds, rendered with
`strftime("%m/%d/%Y %I:%M:%S.%f %p")` and then truncated by `[:-3]`.
The seconds value is passed as the two digit groups of the matched decimal.
`now` stands for the already-formatted `datetime.now()` fallback taken when
the datetime computation overflows (year past 9999; the matched values are
nonnegative, so underflow below year 1 cannot occur). -/
def formatGpsTime (week : Nat) (intPart fracPart : List Char) (now : String) : String :=
  let micros := timedeltaMicros week intPart fracPart
  let days := micros / 86400000000
  let tod := micros % 86400000000
  let ymd := civilFromDays (3657 + (days : ℤ))
  if ymd.1 ≤ 9999 then dropLast3 (strftimeFull ymd.1 ymd.2.1 ymd.2.2 tod)
  else now

/-- Mutable state of `TimestampExtractor`. -/
structure ExtractorState where
  lastTimestamp : Option String
  messageCount : Nat
  deriving DecidableEq, Repr

/-- `TimestampExtractor.extract_from_line` (lines 18-44): search for the
week/seconds pair; on success format, store and return it, else return the
last-known timestamp (`None` if there has never been one). -/
def extractFromLine (now : String) (st : ExtractorState) (line : String) :
    Option String × ExtractorState :=
  match searchWeekSec line.data with
  | some g =>
    let t := formatGpsTime (digitsToNat g.1) g.2.1 g.2.2 now
    (some t, ⟨some t, st.messageCount + 1⟩)
  | none => (st.lastTimestamp, st)

/-- `TimestampExtractor.get_current_timestamp` (lines 75-85): the last-known
timestamp when truthy, else the formatted current wall-clock time `now`. -/
def getCurrentTimestamp (now : String) (st : ExtractorState) : String :=
  match st.lastTimestamp with
  | some t => if t = "" then now else t
  | none => now

/-- The timestamp resolution step of `OEM719Parser.parse` (lines 82-85):
`extract_from_line`, falling back to `get_current_timestamp` when the
result is falsy. -/
def resolveTimestamp (now : String) (st : ExtractorState) (line : String) :
    String × ExtractorState :=
  let r := extractFromLine now st line
  let t :=
    match r.1 with
    | some s => if s = "" then getCurrentTimestamp now r.2 else s
    | none => getCurrentTimestamp now r.2
  (t, r.2)

/-- Mutable state of `FrequencyFilter` (`frequency_filter.py`).  The two
Python dicts initialise a key to `0` on first sight and then increment, so
they are modelled as total functions that default to `0`. -/
structure FreqFilter where
  messagesPerSecond : Nat
  messageCounter : String → Nat
  recordedCount : String → Nat

/-- `FrequencyFilter.__init__`: `messages_per_second = int(1.0 / frequency_hz)`
(truncating division; the observed frequencies are positive, where `int`
truncation is the floor), with empty counter dicts. -/
def FreqFilter.init (frequencyHz : ℚ) : FreqFilter :=
  ⟨(Int.floor ((1 : ℚ) / frequencyHz)).toNat, fun _ => 0, fun _ => 0⟩

/-- `FrequencyFilter.should_record` (lines 24-53): bump the per-type seen
counter, bump the per-type recorded counter when
`counter % max(1, messages_per_second) == 1`, and return `True`
unconditionally. -/
def shouldRecord (f : FreqFilter) (t : String) : Bool × FreqFilter :=
  let mcT := f.messageCounter t + 1
  let mc : String → Nat := fun s => if s == t then mcT else f.messageCounter s
  let rc : String → Nat :=
    if mcT % max 1 f.messagesPerSecond = 1 then
      fun s => if s == t then f.recordedCount t + 1 else f.recordedCount s
    else f.recordedCount
  (true, ⟨f.messagesPerSecond, mc, rc⟩)

/-- `FrequencyFilter.get_message_count` (lines 55-57). -/
def getMessageCount (f : FreqFilter) (t : String) : Nat :=
  f.recordedCount t

/-- `FrequencyFilter.reset` (lines 59-62): clear both dicts. -/
def FreqFilter.reset (f : FreqFilter) : FreqFilter :=
  ⟨f.messagesPerSecond, fun _ => 0, fun _ => 0⟩

/-- Iterate `should_record` `n` times on the same message type, collecting
the returned booleans. -/
def shouldRecordN : FreqFilter → String → Nat → List Bool × FreqFilter
  | f, _, 0 => ([], f)
  | f, t, n + 1 =>
    let r := shouldRecord f t
    let rest := shouldRecordN r.2 t n
    (r.1 :: rest.1, rest.2)

/-- State of `CSVWriterManager` (`csv_writer.py`): the registered channel
names (`csv_writers` keys), the rows written so far per channel, and the
per-channel running counts (`messages_written`, default `0`). -/
structure CSVWriterManager where
  writers : List String
  rowsWritten : String → List (List String)
  messagesWritten : String → Nat

/-- `CSVWriterManager.write_row` (lines 58-74): reject unknown types with
`False`, otherwise append the row to that channel and bump its count. -/
def writeRow (m : CSVWriterManager) (msgType : String) (row : List String) :
    Bool × CSVWriterManager :=
  if msgType ∈ m.writers then
    (true,
      ⟨m.writers,
        fun s => if s == msgType then m.rowsWritten msgType ++ [row] else m.rowsWritten s,
        fun s => if s == msgType then m.messagesWritten msgType + 1 else m.messagesWritten s⟩)
  else (false, m)

/-- A `CSVWriterManager` as built by `__enter__`: the channels of
`csv_headers.HEADERS`, no rows, all counts zero. -/
def sampleManager : CSVWriterManager :=
  ⟨["BESTXYZ", "TIME", "PSRDOP", "HWMONITOR", "GPGSV", "RAW"], fun _ => [], fun _ => 0⟩

/-- Python `file.readline()` on a character stream: read up to and including
the next newline (or to the end of the stream), returning the line and the
new cursor.  Reading at or past the end returns the empty string. -/
def readLine (file : List Char) (pos : Nat) : String × Nat :=
  let rest := file.drop pos
  match rest.findIdx? (fun c => c == '\n') with
  | some j => (String.mk (rest.take (j + 1)), pos + j + 1)
  | none => (String.mk rest, pos + rest.length)

/-- The scan loop of `LogReader.find_gps_lock` (lines 45-54): up to `fuel`
reads; stop on an empty read; return `True` on a line containing
`FINESTEERING`.  Every exit seeks back to `start`. -/
def findGpsLockAux (file : List Char) : Nat → Nat → Nat → Bool × Nat
  | 0, _, start => (false, start)
  | fuel + 1, pos, start =>
    let r := readLine file pos
    if r.1 = "" then (false, start)
    else if containsSub r.1 "FINESTEERING" then (true, start)
    else findGpsLockAux file fuel r.2 start

/-- `LogReader.find_gps_lock` (lines 33-54) with its default
`max_lines = 100`: remembers `tell()`, scans, and restores the cursor. -/
def findGpsLock (file : List Char) (pos : Nat) : Bool × Nat :=
  findGpsLockAux file 100 pos pos

/-- `LogReader.seek_to_start_position` (lines 56-72): seek to the byte
offset, discard the remainder of the straddled line, then run the lock
scan.  Returns whether the lock marker was found and the final cursor. -/
def seekToStartPosition (file : List Char) (offsetBytes : Nat) : Bool × Nat :=
  findGpsLock file (readLine file offsetBytes).2

/-- The field rewrite of `TimeAParser.parse` (lines 58-69) at one index:
`try: row[i] = f"{float(row[i]):.5E}" except: pass`.  The float parse and
scientific-notation print are floating-point and are kept abstract as the
`sci` parameter (`none` models the swallowed exception, leaving the field
unchanged); no claim under verification depends on their values. -/
def reformatAt (sci : String → Option String) (row : List String) (i : Nat) : List String :=
  if i < row.length then
    match sci (row.getD i "") with
    | some s => row.set i s
    | none => row
  else row

/-- `TimeAParser.parse` from `message_parsers.py` (lines 43-71). -/
def timeaParse (sci : String → Option String) (timestamp line : String) :
    Option (List String) :=
  match matchHeaderData "#TIMEA" line with
  | none => none
  | some (h, d) =>
    let row := [timestamp, "#TIMEA"] ++ (splitStripFields h).tail ++ splitStripFields d
    some (reformatAt sci (reformatAt sci row 12) 13)

/-- The pair walk of `HWMonitorAParser.parse` (lines 110-114): data fields
after the count are consumed as `(value, identifier)` pairs; a trailing
unpaired value is dropped. -/
def hwPairsOf : List String → List (String × String)
  | v :: id :: rest => (id, v) :: hwPairsOf rest
  | _ => []

/-- Python-dict lookup over the assignment sequence: the latest assignment
to the key wins; absent keys give `none`. -/
def lookupLastP (key : String) : List (String × String) → Option String
  | [] => none
  | p :: rest =>
    match lookupLastP key rest with
    | some r => some r
    | none => if p.1 == key then some p.2 else none

/-- `readings.get(key, '')` from `HWMonitorAParser.parse`. -/
def hwGet (key : String) (prs : List (String × String)) : String :=
  (lookupLastP key prs).getD ""

/-- `HWMonitorAParser.parse` from `message_parsers.py` (lines 96-130). -/
def hwmonitoraParse (timestamp line : String) : Option (List String) :=
  match matchHeaderData "#HWMONITORA" line with
  | none => none
  | some (h, d) =>
    let readings := hwPairsOf (splitStripFields d).tail
    some ([timestamp, "#HWMONITORA"] ++ (splitStripFields h).tail ++
      [hwGet "100" readings, hwGet "200" readings, hwGet "600" readings,
       hwGet "700" readings, hwGet "800" readings, hwGet "f00" readings,
       hwGet "1100" readings, hwGet "1500" readings, hwGet "1600" readings,
       "0", "0", "0", "0", "0", "0", "0", "0", "0"])

/-- Orchestrator state threaded through the per-line loop of
`OEM719Parser.parse`: the timestamp extractor and the frequency filter.
The duration limiter is wall-clock driven and is modelled as a run that
stays within its budget (no line is cut off), matching the loop body,
which processes and raw-logs each line before the expiry check. -/
structure PipeState where
  ext : ExtractorState
  ff : FreqFilter

/-- The common shape of `_process_bestxyz` .. `_process_gpgsv`
(`oem719_parser.py` lines 130-167): if the parser produced a truthy row,
ask the frequency filter and, on admission, emit the row on the channel.
Python short-circuits `row and should_record(...)`, so the filter state is
untouched when the row is falsy. -/
def routeParsed (chan : String) (row? : Option (List String)) (ff : FreqFilter) :
    List (String × List String) × FreqFilter :=
  match row? with
  | none => ([], ff)
  | some r =>
    if r.isEmpty then ([], ff)
    else
      let sr := shouldRecord ff chan
      (if sr.1 then [(chan, r)] else [], sr.2)

/-- The `if/elif` classification chain of `OEM719Parser.parse`
(lines 92-107): first marker substring wins; the GPGSV branch hands the
parser a buffer holding only the current line (`line_buffer = [line]`). -/
def typedWrites (sci : String → Option String) (t line : String) (ff : FreqFilter) :
    List (String × List String) × FreqFilter :=
  if containsSub line "#BESTXYZA" then routeParsed "BESTXYZ" (bestxyzParse t line) ff
  else if containsSub line "#TIMEA" then routeParsed "TIME" (timeaParse sci t line) ff
  else if containsSub line "#PSRDOPA" then routeParsed "PSRDOP" (psrdopaParse t line) ff
  else if containsSub line "#HWMONITORA" then routeParsed "HWMONITOR" (hwmonitoraParse t line) ff
  else if containsSub line "$GPGSV" then
    routeParsed "GPGSV" (gpgsvParseMulti t [line]).1 ff
  else ([], ff)

/-- The raw-channel cell `f'"{line}\n"'`: the original line wrapped in
double quotes with a newline embedded before the closing quote. -/
def rawCell (line : String) : String :=
  "\"" ++ line ++ "\n\""

/-- One iteration of the loop body of `OEM719Parser.parse` (lines 79-110):
resolve the timestamp, run the classification chain, then always append
the raw-channel write.  Produces the `write_row` calls of the iteration
and the successor state. -/
def processLine (sci : String → Option String) (now : String) (st : PipeState)
    (line : String) : List (String × List String) × PipeState :=
  let t := (resolveTimestamp now st.ext line).1
  let tw := typedWrites sci t line st.ff
  (tw.1 ++ [("RAW", [t, rawCell line])], ⟨(resolveTimestamp now st.ext line).2, tw.2⟩)

/-- The whole per-line loop over the yielded lines, collecting every
`write_row` call in order. -/
def processLines (sci : String → Option String) (now : String) :
    PipeState → List String → List (String × List String) × PipeState
  | st, [] => ([], st)
  | st, l :: ls =>
    let w := processLine sci now st l
    let rest := processLines sci now w.2 ls
    (w.1 ++ rest.1, rest.2)

/-- The timestamps the loop resolves, line by line. -/
def timestampTrace (now : String) : ExtractorState → List String → List String
  | _, [] => []
  | st, l :: ls =>
    (resolveTimestamp now st l).1 :: timestampTrace now (resolveTimestamp now st l).2 ls

/-- A fresh pipeline state with the default 1 Hz filter and no timestamp
history, as `OEM719Parser.__init__` builds. -/
def initPipeState : PipeState :=
  ⟨⟨none, 0⟩, FreqFilter.init 1⟩

/-- The scenario input line of the specification's BESTXYZA example. -/
def bestxyzScenarioLine : String :=
  "#BESTXYZA,1,123.0,GOOD,0;FINESTEERING,10,0,0,0,0,0,0*a1b2"

/-- First sentence of a two-sentence GPGSV group. -/
def gpgsvLine1 : String := "$GPGSV,2,1,08,1,2,3,4*7C"

/-- Second sentence of a two-sentence GPGSV group. -/
def gpgsvLine2 : String := "$GPGSV,2,2,08,5,6,7,8*7F"

/-- A GPGSV sentence whose third satellite field is empty. -/
def gpgsvBlankA : String := "$GPGSV,1,1,03,1,2,,4*4A"

/-- The same GPGSV sentence with the empty field replaced by a space. -/
def gpgsvBlankB : String := "$GPGSV,1,1,03,1,2, ,4*6A"

end OEM719


namespace OEM719

/-- C1 counterexample: the specification's scenario line does not decode to
the claimed 14-element record; `BestXYZParser.parse` drops the first header
field (`header_fields[1:]`), so the output has 13 fields and omits `"1"`. -/
theorem bestxyz_scenario_counterexample :
    bestxyzParse "01/01/2024 12:00:00.000 PM" bestxyzScenarioLine
      = some ["01/01/2024 12:00:00.000 PM", "#BESTXYZA", "123.0", "GOOD", "0",
              "FINESTEERING", "10", "0", "0", "0", "0", "0", "0"] ∧
    bestxyzParse "01/01/2024 12:00:00.000 PM" bestxyzScenarioLine
      ≠ some ["01/01/2024 12:00:00.000 PM", "#BESTXYZA", "1", "123.0", "GOOD", "0",
              "FINESTEERING", "10", "0", "0", "0", "0", "0", "0"] := by
  constructor <;> decide

/-- C1 (amended): for every well-formed BESTXYZA line the decoded record is
`[timestamp, "#BESTXYZA"]` followed by the header fields from the second
onward and then all data fields (doubled quotes collapsed), so its length
is `2 + (headerFieldCount - 1) + dataFieldCount`. -/
theorem bestxyz_parse_shape (ts line h d : String)
    (hm : matchHeaderData "#BESTXYZA" line = some (h, d)) :
    bestxyzParse ts line
      = some ([ts, "#BESTXYZA"] ++ (splitStripFields h).tail
          ++ (splitStripFields d).map removeQQStr) ∧
    ((bestxyzParse ts line).getD []).length
      = 2 + ((splitStripFields h).length - 1) + (splitStripFields d).length := by
  have he : bestxyzParse ts line
      = some ([ts, "#BESTXYZA"] ++ (splitStripFields h).tail
          ++ (splitStripFields d).map removeQQStr) := by
    unfold bestxyzParse
    rw [hm]
  refine ⟨he, ?_⟩
  rw [he]
  simp [List.length_append, List.length_tail, List.length_map]
  omega

/-- C1 witness: the amended shape law evaluated on the scenario line. -/
theorem bestxyz_parse_shape_witness :
    matchHeaderData "#BESTXYZA" bestxyzScenarioLine
      = some ("1,123.0,GOOD,0", "FINESTEERING,10,0,0,0,0,0,0") ∧
    (bestxyzParse "T" bestxyzScenarioLine
      = some (["T", "#BESTXYZA"] ++ (splitStripFields "1,123.0,GOOD,0").tail
          ++ (splitStripFields "FINESTEERING,10,0,0,0,0,0,0").map removeQQStr) ∧
     ((bestxyzParse "T" bestxyzScenarioLine).getD []).length
      = 2 + ((splitStripFields "1,123.0,GOOD,0").length - 1)
          + (splitStripFields "FINESTEERING,10,0,0,0,0,0,0").length) :=
  ⟨by decide,
   bestxyz_parse_shape "T" bestxyzScenarioLine "1,123.0,GOOD,0"
     "FINESTEERING,10,0,0,0,0,0,0" (by decide)⟩

/-- C5 counterexample: a PSRDOPA line with 2 header fields and 2 data
fields decodes to 5 fields, not the claimed `2 + headerFieldCount + 6 = 10`
(the first header field is dropped and short data is not padded to 6). -/
theorem psrdopa_length_counterexample :
    psrdopaParse "T" "#PSRDOPA,a,b;c,d*ff" = some ["T", "#PSRDOPA", "b", "c", "d"] ∧
    ((psrdopaParse "T" "#PSRDOPA,a,b;c,d*ff").getD []).length ≠ 2 + 2 + 6 := by
  constructor <;> decide

/-- C5 (amended): for every line matching the PSRDOPA shape, the output is
`[timestamp, "#PSRDOPA"]`, the header fields from the second onward, and
the first six data fields; its length is
`2 + (headerFieldCount - 1) + min 6 dataFieldCount`, so data beyond the
sixth field is dropped. -/
theorem psrdopa_parse_shape (ts line h d : String)
    (hm : matchHeaderData "#PSRDOPA" line = some (h, d)) :
    psrdopaParse ts line
      = some ([ts, "#PSRDOPA"] ++ (splitStripFields h).tail
          ++ (splitStripFields d).take 6) ∧
    ((psrdopaParse ts line).getD []).length
      = 2 + ((splitStripFields h).length - 1) + min 6 (splitStripFields d).length := by
  have he : psrdopaParse ts line
      = some ([ts, "#PSRDOPA"] ++ (splitStripFields h).tail
          ++ (splitStripFields d).take 6) := by
    unfold psrdopaParse
    rw [hm]
  refine ⟨he, ?_⟩
  rw [he]
  simp [List.length_append, List.length_tail, List.length_take]
  omega

/-- C5 witness: the amended shape law evaluated on a line with eight data
fields (only six are kept). -/
theorem psrdopa_parse_shape_witness :
    matchHeaderData "#PSRDOPA" "#PSRDOPA,h1,h2;d1,d2,d3,d4,d5,d6,d7,d8*7F"
      = some ("h1,h2", "d1,d2,d3,d4,d5,d6,d7,d8") ∧
    (psrdopaParse "T" "#PSRDOPA,h1,h2;d1,d2,d3,d4,d5,d6,d7,d8*7F"
      = some (["T", "#PSRDOPA"] ++ (splitStripFields "h1,h2").tail
          ++ (splitStripFields "d1,d2,d3,d4,d5,d6,d7,d8").take 6) ∧
     ((psrdopaParse "T" "#PSRDOPA,h1,h2;d1,d2,d3,d4,d5,d6,d7,d8*7F").getD []).length
      = 2 + ((splitStripFields "h1,h2").length - 1)
          + min 6 (splitStripFields "d1,d2,d3,d4,d5,d6,d7,d8").length) :=
  ⟨by decide,
   psrdopa_parse_shape "T" "#PSRDOPA,h1,h2;d1,d2,d3,d4,d5,d6,d7,d8*7F"
     "h1,h2" "d1,d2,d3,d4,d5,d6,d7,d8" (by decide)⟩

end OEM719

namespace OEM719

/-- C2 (code bug): on a line embedding week `0` seconds `0.0`, the resolver
derives and stores a timestamp — but because the strftime pattern puts the
meridiem after the microseconds, the `[:-3]` truncation removes the
meridiem instead of cutting microseconds down to milliseconds.  The stored
value is `01/06/1980 12:00:00.000000`: six fractional digits, 12-hour
clock, and no trailing AM/PM (the last character is a digit). -/
theorem timestamp_format_missing_meridiem :
    (extractFromLine "NOW" ⟨none, 0⟩ "#TEST,0,0.0,rest").1
      = some "01/06/1980 12:00:00.000000" ∧
    (extractFromLine "NOW" ⟨none, 0⟩ "#TEST,0,0.0,rest").2.lastTimestamp
      = some "01/06/1980 12:00:00.000000" ∧
    "01/06/1980 12:00:00.000000".data.getLast? = some '0' ∧
    (strftimeFull 1980 1 6 0).data.getLast? = some 'M' := by
  refine ⟨by decide, by decide, by decide, by decide⟩

/-- C4 (code bug): with the default 1 Hz configuration
(`messages_per_second = int(1.0/1.0) = 1`), two admission checks for one
message type both return `True` (both records are admitted), yet
`get_message_count` still reports `0`, because `recorded_count` only
increments when `counter % max(1, messages_per_second) == 1`, which is
never true for a modulus of 1. -/
theorem freqfilter_count_stays_zero :
    (shouldRecordN (FreqFilter.init 1) "BESTXYZ" 2).1 = [true, true] ∧
    getMessageCount (shouldRecordN (FreqFilter.init 1) "BESTXYZ" 2).2 "BESTXYZ" = 0 := by
  have h : FreqFilter.init 1 = ⟨1, fun _ => 0, fun _ => 0⟩ := by
    unfold FreqFilter.init
    norm_num
  rw [h]
  exact ⟨by decide, by decide⟩

end OEM719

namespace OEM719

/-- A group whose first line bears the `$GPGSV` marker consumes at least
one line. -/
theorem gpgsvScan_consumed_pos (l : String) (ls : List String)
    (h : strStartsWith l "$GPGSV" = true) : (gpgsvScan (l :: ls)).2.2 ≠ 0 := by
  unfold gpgsvScan
  rw [if_pos h]
  cases hm : matchGpgsv l <;> simp

/-- On a group with a leading `$GPGSV` line, `parse_multi` returns the row
built from the scan results. -/
theorem gpgsvParseMulti_eq_row (ts l : String) (ls : List String)
    (h : strStartsWith l "$GPGSV" = true) :
    gpgsvParseMulti ts (l :: ls)
      = (some (gpgsvRow ts ((gpgsvScan (l :: ls)).2.1.getD 0) (gpgsvScan (l :: ls)).1),
         (gpgsvScan (l :: ls)).2.2) := by
  unfold gpgsvParseMulti
  rw [if_neg (gpgsvScan_consumed_pos l ls h)]

/-- The GPGSV row always has 402 fields. -/
theorem gpgsvRow_length (ts : String) (tot : Nat) (sd : List String) :
    (gpgsvRow ts tot sd).length = 402 := by
  simp [gpgsvRow]

/-- Row position `2 + i` of the GPGSV row holds the `i`-th slot value. -/
theorem gpgsvRow_getD (ts : String) (tot : Nat) (sd : List String) (i : Nat)
    (h : i < 400) :
    (gpgsvRow ts tot sd).getD (2 + i) "" = slotVal sd i := by
  have h' : i < ((List.range (100 * 4)).map (slotVal sd)).length := by
    simpa using h
  rw [Nat.add_comm]
  show (ts :: natToStr tot :: (List.range (100 * 4)).map (slotVal sd)).getD (i + 2) "" = _
  rw [show i + 2 = (i + 1) + 1 from rfl, List.getD_cons_succ, List.getD_cons_succ,
    List.getD_eq_getElem _ _ h']
  simp

/-- Slots at or beyond the satellite data are the literal `#NV`. -/
theorem slotVal_of_ge (sd : List String) (i : Nat) (h : sd.length ≤ i) :
    slotVal sd i = "#NV" := by
  unfold slotVal
  rw [if_neg (by omega)]

/-- In-range slots whose stripped value is empty are the literal `#NV`. -/
theorem slotVal_of_blank (sd : List String) (i : Nat) (h1 : i < sd.length)
    (h2 : pyStrip (sd.getD i "") = "") : slotVal sd i = "#NV" := by
  unfold slotVal
  rw [if_pos h1, if_pos h2]

/-- C6: for every line group whose first line bears the `$GPGSV` marker,
`parse_multi` produces a row of exactly 402 fields — timestamp,
`total_sats`, then 400 slots — and every slot at an index at or beyond the
length of the concatenated satellite data is the literal `#NV`. -/
theorem gpgsv_row_shape (ts : String) (lines : List String) (l : String)
    (ls : List String) (hcons : lines = l :: ls)
    (hstart : strStartsWith l "$GPGSV" = true) :
    (gpgsvParseMulti ts lines).1.isSome = true ∧
    ((gpgsvParseMulti ts lines).1.getD []).length = 402 ∧
    ∀ i, i < 400 → (gpgsvScan lines).1.length ≤ i →
      ((gpgsvParseMulti ts lines).1.getD []).getD (2 + i) "" = "#NV" := by
  subst hcons
  rw [gpgsvParseMulti_eq_row ts l ls hstart]
  refine ⟨rfl, ?_, fun i h1 h2 => ?_⟩
  · simp [gpgsvRow_length]
  · simp only [Option.getD_some]
    rw [gpgsvRow_getD _ _ _ _ h1, slotVal_of_ge _ _ h2]

/-- C6 witness: a single-sentence group with four satellite fields has a
402-field row whose slot 10 (beyond the four data values) is `#NV`. -/
theorem gpgsv_row_shape_witness :
    (gpgsvParseMulti "T" [gpgsvLine1]).1.isSome = true ∧
    ((gpgsvParseMulti "T" [gpgsvLine1]).1.getD []).length = 402 ∧
    ((gpgsvParseMulti "T" [gpgsvLine1]).1.getD []).getD (2 + 10) "" = "#NV" :=
  have h := gpgsv_row_shape "T" [gpgsvLine1] gpgsvLine1 [] rfl (by decide)
  ⟨h.1, h.2.1, h.2.2 10 (by decide) (by decide)⟩

/-- C10: an in-range satellite slot whose value strips to the empty string
is also rendered as `#NV`, and consequently the two concrete groups
`gpgsvBlankA`/`gpgsvBlankB`, which differ only in such a blank field
(empty vs. a single space), decode to identical rows. -/
theorem gpgsv_blank_slot_nv (ts : String) (lines : List String) (l : String)
    (ls : List String) (hcons : lines = l :: ls)
    (hstart : strStartsWith l "$GPGSV" = true) (i : Nat) (h1 : i < 400)
    (h2 : i < (gpgsvScan lines).1.length)
    (h3 : pyStrip ((gpgsvScan lines).1.getD i "") = "") :
    ((gpgsvParseMulti ts lines).1.getD []).getD (2 + i) "" = "#NV" ∧
    (gpgsvParseMulti ts [gpgsvBlankA]).1 = (gpgsvParseMulti ts [gpgsvBlankB]).1 := by
  constructor
  · subst hcons
    rw [gpgsvParseMulti_eq_row ts l ls hstart]
    simp only [Option.getD_some]
    rw [gpgsvRow_getD _ _ _ _ h1, slotVal_of_blank _ _ h2 h3]
  · have hA : gpgsvParseMulti ts [gpgsvBlankA]
        = (some (gpgsvRow ts 3 ["1", "2", "", "4"]), 1) := rfl
    have hB : gpgsvParseMulti ts [gpgsvBlankB]
        = (some (gpgsvRow ts 3 ["1", "2", " ", "4"]), 1) := rfl
    have hs : (List.range (100 * 4)).map (slotVal ["1", "2", "", "4"])
        = (List.range (100 * 4)).map (slotVal ["1", "2", " ", "4"]) := by decide
    rw [hA, hB]
    simp [gpgsvRow, hs]

/-- C10 witness: the blank third field of `gpgsvBlankA` renders as `#NV`,
and the two blank variants decode identically. -/
theorem gpgsv_blank_slot_nv_witness :
    ((gpgsvParseMulti "T" [gpgsvBlankA]).1.getD []).getD (2 + 2) "" = "#NV" ∧
    (gpgsvParseMulti "T" [gpgsvBlankA]).1 = (gpgsvParseMulti "T" [gpgsvBlankB]).1 :=
  gpgsv_blank_slot_nv "T" [gpgsvBlankA] gpgsvBlankA [] rfl (by decide) 2
    (by decide) (by decide) (by decide)

end OEM719

namespace OEM719

/-- The lock-scan loop restores the remembered start position on every
exit path (found, empty read, or fuel exhausted). -/
theorem findGpsLockAux_restores (file : List Char) :
    ∀ fuel pos start, (findGpsLockAux file fuel pos start).2 = start := by
  intro fuel
  induction fuel with
  | zero => intro pos start; rfl
  | succ n ih =>
    intro pos start
    unfold findGpsLockAux
    dsimp only
    split
    · rfl
    · split
      · rfl
      · exact ih _ _

/-- C7: whatever the stream contents and the byte offset, the cursor after
`seek_to_start_position` is exactly the position reached by the
offset-alignment `readline` alone, so the first line subsequently read is
identical whether or not the lock marker was found by the lookahead. -/
theorem seekToStart_cursor_frame (file : List Char) (offsetBytes : Nat) :
    (seekToStartPosition file offsetBytes).2 = (readLine file offsetBytes).2 ∧
    readLine file (seekToStartPosition file offsetBytes).2
      = readLine file (readLine file offsetBytes).2 := by
  have h : (seekToStartPosition file offsetBytes).2 = (readLine file offsetBytes).2 := by
    unfold seekToStartPosition findGpsLock
    exact findGpsLockAux_restores file 100 _ _
  exact ⟨h, by rw [h]⟩

/-- C3 (code bug): fed two physically consecutive `$GPGSV` sentences of one
declared two-sentence group, the pipeline emits two separate GPGSV records
(its buffer only ever holds the current line), even though the decoder,
given both lines, would consume both into one group. -/
theorem gpgsv_group_not_merged :
    ((processLines (fun _ => none) "NOW" initPipeState [gpgsvLine1, gpgsvLine2]).1.filter
        (fun w => w.1 == "GPGSV")).length = 2 ∧
    (gpgsvParseMulti "NOW" [gpgsvLine1, gpgsvLine2]).2 = 2 := by
  have h : initPipeState = ⟨⟨none, 0⟩, ⟨1, fun _ => 0, fun _ => 0⟩⟩ := by
    unfold initPipeState FreqFilter.init
    norm_num
  rw [h]
  exact ⟨by decide, by decide⟩

end OEM719

namespace OEM719

/-- A typed route on a non-RAW channel contributes nothing to the RAW
filter. -/
theorem routeParsed_filter_raw (chan : String) (row? : Option (List String))
    (ff : FreqFilter) (h : (chan == "RAW") = false) :
    (routeParsed chan row? ff).1.filter (fun w => w.1 == "RAW") = [] := by
  have hne : chan ≠ "RAW" := by
    intro hq
    rw [hq] at h
    simp at h
  unfold routeParsed
  cases row? with
  | none => rfl
  | some r =>
    by_cases he : r.isEmpty
    · simp [he]
    · simp only [he, if_neg]
      split <;> simp [hne]

/-- No branch of the classification chain writes to the RAW channel. -/
theorem typedWrites_filter_raw (sci : String → Option String) (t line : String)
    (ff : FreqFilter) :
    (typedWrites sci t line ff).1.filter (fun w => w.1 == "RAW") = [] := by
  unfold typedWrites
  split
  · exact routeParsed_filter_raw _ _ _ (by decide)
  split
  · exact routeParsed_filter_raw _ _ _ (by decide)
  split
  · exact routeParsed_filter_raw _ _ _ (by decide)
  split
  · exact routeParsed_filter_raw _ _ _ (by decide)
  split
  · exact routeParsed_filter_raw _ _ _ (by decide)
  · rfl

/-- C8: every processed input line produces exactly one RAW-channel write,
the two-field row `[timestamp, '"' ++ line ++ '\n' ++ '"']`, in input
order, regardless of whether the line matched any decoder marker and
independent of the rate limiter's admission decisions. -/
theorem raw_channel_invariant (sci : String → Option String) (now : String)
    (st : PipeState) (lines : List String) :
    (processLines sci now st lines).1.filter (fun w => w.1 == "RAW")
      = List.zipWith (fun t l => ("RAW", [t, rawCell l]))
          (timestampTrace now st.ext lines) lines := by
  induction lines generalizing st with
  | nil => rfl
  | cons l ls ih =>
    show ((processLine sci now st l).1
        ++ (processLines sci now (processLine sci now st l).2 ls).1).filter
          (fun w => w.1 == "RAW") = _
    rw [List.filter_append]
    show ((typedWrites sci (resolveTimestamp now st.ext l).1 l st.ff).1
        ++ [("RAW", [(resolveTimestamp now st.ext l).1, rawCell l])]).filter
          (fun w => w.1 == "RAW")
        ++ _ = _
    rw [List.filter_append, typedWrites_filter_raw]
    show [("RAW", [(resolveTimestamp now st.ext l).1, rawCell l])]
        ++ (processLines sci now (processLine sci now st l).2 ls).1.filter
          (fun w => w.1 == "RAW") = _
    rw [ih]
    rfl

end OEM719

namespace OEM719

/-- C9: `write_row` returns `False` exactly when the message type is not a
registered channel; on a registered channel the row is appended to that
channel, its running count grows by one, and every other channel's count is
unchanged. -/
theorem writeRow_spec (m : CSVWriterManager) (t : String) (row : List String) :
    ((writeRow m t row).1 = false ↔ t ∉ m.writers) ∧
    (t ∈ m.writers →
      (writeRow m t row).2.rowsWritten t = m.rowsWritten t ++ [row] ∧
      (writeRow m t row).2.messagesWritten t = m.messagesWritten t + 1 ∧
      ∀ u, u ≠ t → (writeRow m t row).2.messagesWritten u = m.messagesWritten u) := by
  by_cases h : t ∈ m.writers
  · refine ⟨by simp [writeRow, h], fun _ => ⟨by simp [writeRow, h], by simp [writeRow, h],
      fun u hu => ?_⟩⟩
    simp [writeRow, h, hu]
  · exact ⟨by simp [writeRow, h], fun hc => absurd hc h⟩

/-- C9 witness: writing a row to the registered `TIME` channel of a fresh
manager appends it there, sets that count to one, and leaves the `RAW`
count at zero. -/
theorem writeRow_spec_witness :
    ("TIME" ∈ sampleManager.writers) ∧
    (writeRow sampleManager "TIME" ["a", "b"]).2.rowsWritten "TIME"
      = sampleManager.rowsWritten "TIME" ++ [["a", "b"]] ∧
    (writeRow sampleManager "TIME" ["a", "b"]).2.messagesWritten "TIME"
      = sampleManager.messagesWritten "TIME" + 1 ∧
    (writeRow sampleManager "TIME" ["a", "b"]).2.messagesWritten "RAW"
      = sampleManager.messagesWritten "RAW" ∧
    (writeRow sampleManager "BOGUS" ["a"]).1 = false :=
  have h := writeRow_spec sampleManager "TIME" ["a", "b"]
  have hm : "TIME" ∈ sampleManager.writers := by decide
  ⟨hm, (h.2 hm).1, (h.2 hm).2.1, (h.2 hm).2.2 "RAW" (by decide),
   (writeRow_spec sampleManager "BOGUS" ["a"]).1.mpr (by decide)⟩

end OEM719
